import Mathlib

/-!
Shallow embedding of `app/fastapi_app.py` (tri_dechet_yolo).

The repository exposes a YOLO detector behind a FastAPI app plus a
webcam capture/stream subsystem built on module-level globals
(`camera_active : bool`, `current_frame`, `camera_lock`), a daemon
thread running `webcam_stream_task`, and polling stream sessions
(`generate_frames`).  Below, each Python function is translated into a
Lean definition; external collaborators (the YOLO model, OpenCV codec,
base64) are abstracted as parameters carrying opaque values, exactly as
the spec treats them (out-of-scope capabilities).
-/

namespace TriDechet

/-! ## Detection pipeline (`process_detection`, lines 149-188) -/

/-- One entry of `results[i].boxes` as consumed by `process_detection`:
`box.cls` (class index), `box.conf` (confidence, carried opaquely as an
integer fixed-point value since no arithmetic is performed on it), and
the two box representations `box.xywhn[0].tolist()` / `box.xyxy[0].tolist()`
carried as integer lists. -/
structure Box where
  cls : Nat
  conf : Int
  xywhn : List Int
  xyxy : List Int
deriving DecidableEq, Repr

/-- One element of the `results` list returned by `model.predict`:
`boxes` is `None` or a list of boxes, and `plot` is the annotated image
`r.plot()` would return (images are carried as opaque strings). -/
structure YoloResult where
  boxes : Option (List Box)
  plot : String
deriving DecidableEq, Repr

/-- The detection dict built per box in `process_detection`
(lines 169-175).  The Python key `class` is spelled `className` because
`class` is a Lean keyword. -/
structure Detection where
  className : String
  class_id : Nat
  confidence : Int
  bbox : List Int
  bbox_pixels : List Int
deriving DecidableEq, Repr

/-- The `DetectionResponse` pydantic model (lines 55-60). -/
structure DetectionResponse where
  success : Bool
  detections : List Detection
  count : Nat
  image_with_boxes : Option String
  message : String
deriving DecidableEq, Repr

/-- Builds one detection dict from a box (lines 169-175): class name is
looked up in `model.names`, and each bbox list is taken when non-empty
(`numel() > 0`) and `[]` otherwise. -/
def mkDetection (names : Nat → String) (b : Box) : Detection :=
  { className := names b.cls
    class_id := b.cls
    confidence := b.conf
    bbox := if b.xywhn = [] then [] else b.xywhn
    bbox_pixels := if b.xyxy = [] then [] else b.xyxy }

/-- The `for r in results` loop of `process_detection` (lines 162-176),
with its two mutated locals as accumulators: `dets` is `detections` and
`rimg` is `result_image` (initialised to the input image copy).  When
`r.boxes is not None` the result image becomes `r.plot()` and every box
is appended as a detection dict. -/
def detLoop (names : Nat → String) (dets : List Detection) (rimg : String) :
    List YoloResult → List Detection × String
  | [] => (dets, rimg)
  | r :: rs =>
    match r.boxes with
    | none => detLoop names dets rimg rs
    | some bs => detLoop names (dets ++ bs.map (mkDetection names)) r.plot rs

/-- `process_detection` (lines 149-188) after the external calls are
abstracted: `names` is `model.names`, `encode` is the
`cv2.imencode` + `base64.b64encode` chain, `img` the (converted) input
image and `results` the output of `model.predict`.  The function builds
the detection list, encodes the final result image, and assembles the
response; the message is the French count string, or the no-object
message when `detections` is empty (line 187). -/
def process_detection (names : Nat → String) (encode : String → String)
    (img : String) (results : List YoloResult) : DetectionResponse :=
  let p := detLoop names [] img results
  { success := true
    detections := p.1
    count := p.1.length
    image_with_boxes := some (encode p.2)
    message :=
      if p.1.isEmpty then "Aucun objet détecté"
      else toString p.1.length ++ " objets détectés" }

/-! ## HTTP handler boundary (`detect_image`, `detect_upload`) -/

/-- An `HTTPException(status_code, detail)` value. -/
structure HTTPExc where
  status : Nat
  detail : String
deriving DecidableEq, Repr

/-- Starlette's `HTTPException.__str__`, i.e. what `str(e)` yields when
the blanket `except Exception as e` clause catches an `HTTPException`:
`f"{status_code}: {detail}"`. -/
def strExc (e : HTTPExc) : String :=
  toString e.status ++ ": " ++ e.detail

/-- The `DetectionRequest` pydantic model (lines 51-53); `image` is an
optional base64 string. -/
structure DetectionRequest where
  confidence : Int
  image : Option String
deriving DecidableEq, Repr

/-- Python truthiness test `not request.image`: true for `None` and for
the empty string. -/
def optStrFalsy : Option String → Bool
  | none => true
  | some s => s = ""

/-- The data-URI stripping of lines 114-115: if `'base64,' in image_data`
then `image_data.split('base64,')[1]`. -/
def split_data_uri (s : String) : String :=
  if 2 ≤ (s.splitOn "base64,").length then ((s.splitOn "base64,").get? 1).getD s
  else s

/-- Python's `str.startswith`: a character-level prefix test (spelled
out over the character lists so that it evaluates by reduction). -/
def pyStartswith (s pre : String) : Bool :=
  List.isPrefixOf pre.data s.data

/-- Result of a handler as seen by the HTTP client: either a structured
response or an `HTTPException` (status, detail) escaping the handler. -/
inductive HandlerResult
  | ok (resp : DetectionResponse)
  | httpError (status : Nat) (detail : String)
deriving DecidableEq, Repr

/-- The `try`-block body of `detect_image` (lines 105-121): fail 500 when
the model is not loaded, fail 400 when the image field is falsy,
otherwise strip the data-URI prefix and run the rest of the pipeline
(base64 decode, PIL open, `process_detection`), abstracted as the
fallible `pipeline` parameter. -/
def detect_image_body (modelLoaded : Bool) (req : DetectionRequest)
    (pipeline : String → Int → Except HTTPExc DetectionResponse) :
    Except HTTPExc DetectionResponse :=
  if modelLoaded = false then Except.error ⟨500, "Model not loaded"⟩
  else if optStrFalsy req.image then Except.error ⟨400, "No image provided"⟩
  else pipeline (split_data_uri (req.image.getD "")) req.confidence

/-- `detect_image` (lines 102-124): the `except Exception as e` clause
catches every exception raised in the body — including the handler's own
`HTTPException`s — and re-raises `HTTPException(500, str(e))`. -/
def detect_image (modelLoaded : Bool) (req : DetectionRequest)
    (pipeline : String → Int → Except HTTPExc DetectionResponse) : HandlerResult :=
  match detect_image_body modelLoaded req pipeline with
  | Except.ok r => HandlerResult.ok r
  | Except.error e => HandlerResult.httpError 500 (strExc e)

/-- The `try`-block body of `detect_upload` (lines 132-144): fail 500
when the model is not loaded, fail 400 when the uploaded file's content
type does not start with `image/`, otherwise read the file and run the
pipeline (abstracted as `pipeline`). -/
def detect_upload_body (modelLoaded : Bool) (contentType : String)
    (contents : String) (confidence : Int)
    (pipeline : String → Int → Except HTTPExc DetectionResponse) :
    Except HTTPExc DetectionResponse :=
  if modelLoaded = false then Except.error ⟨500, "Model not loaded"⟩
  else if pyStartswith contentType "image/" = false then
    Except.error ⟨400, "File must be an image"⟩
  else pipeline contents confidence

/-- `detect_upload` (lines 126-147): same blanket `except Exception`
wrapping as `detect_image`. -/
def detect_upload (modelLoaded : Bool) (contentType : String)
    (contents : String) (confidence : Int)
    (pipeline : String → Int → Except HTTPExc DetectionResponse) : HandlerResult :=
  match detect_upload_body modelLoaded contentType contents confidence pipeline with
  | Except.ok r => HandlerResult.ok r
  | Except.error e => HandlerResult.httpError 500 (strExc e)

/-! ## Webcam subsystem state machine

The module globals (lines 36-38) and the thread bookkeeping are the
system state.  Frames are identified by a natural number: each publish
carries a distinct value, which plays the role of the spec's
"generation" (the code itself keeps no counter).  `loops` counts the
capture-loop thread instances currently inside `webcam_stream_task`, and
`openCaps` counts unreleased `cv2.VideoCapture` handles. -/

structure Sys where
  camera_active : Bool
  current_frame : Option Nat
  loops : Nat
  openCaps : Nat
deriving DecidableEq, Repr

/-- Outcome of one `cap.read()` attempt inside the capture loop:
a frame (already resized/annotated, carried as its identity), no data
(`ret` false — device disconnected / end of stream), or an exception
raised anywhere in the iteration (e.g. from `model.predict`). -/
inductive ReadRes
  | frame (f : Nat)
  | noData
  | raisesErr
deriving DecidableEq, Repr

/-- `webcam_start` (lines 229-250), with the spawned thread's
`cv2.VideoCapture` open folded into the spawn: when `camera_active` is
already true it returns the `already_active` status and touches nothing;
otherwise it sets `camera_active = True` and starts one more
`webcam_stream_task` thread.  The string is the `status` field of the
returned JSON. -/
def webcam_start (s : Sys) : Sys × String :=
  if s.camera_active then (s, "already_active")
  else ({ s with camera_active := true
                 loops := s.loops + 1
                 openCaps := s.openCaps + 1 }, "started")

/-- `webcam_stop` (lines 252-261): sets `camera_active = False` and
returns immediately.  Nothing else is touched — in particular
`current_frame` is left as is and the loop thread keeps running until
its next `while` check. -/
def webcam_stop (s : Sys) : Sys × String :=
  ({ s with camera_active := false }, "stopped")

/-- One iteration boundary of `webcam_stream_task` (lines 194-227) taken
by one of the running loop threads.  If no loop exists nothing happens.
If the `while camera_active` guard fails, the loop exits and
`cap.release()` runs (line 222).  Otherwise the read result decides:
a frame is processed and published into `current_frame` under the lock
(lines 202-215); `ret` false hits the `break` (line 217) so the loop
exits and releases the cap but leaves `camera_active` untouched; an
exception jumps to the `except` clause (lines 225-227) which logs and
sets `camera_active = False` — without ever reaching `cap.release()`. -/
def loopIter (s : Sys) (r : ReadRes) : Sys :=
  if s.loops = 0 then s
  else if s.camera_active = false then
    { s with loops := s.loops - 1, openCaps := s.openCaps - 1 }
  else
    match r with
    | ReadRes.frame f => { s with current_frame := some f }
    | ReadRes.noData => { s with loops := s.loops - 1, openCaps := s.openCaps - 1 }
    | ReadRes.raisesErr => { s with camera_active := false, loops := s.loops - 1 }

/-- What one poll of a stream session's `generate_frames` loop
(lines 274-285) does, as a function of the shared state it observes:
the `while camera_active` guard ends the stream when false; otherwise,
under the lock, a present frame is encoded and emitted as one chunk and
an absent frame yields nothing this round (sleep and retry). -/
inductive StreamStep
  | ended
  | skipped
  | emit (f : Nat)
deriving DecidableEq, Repr

/-- One poll of `generate_frames`. -/
def generate_frames_iter (s : Sys) : StreamStep :=
  if s.camera_active = false then StreamStep.ended
  else
    match s.current_frame with
    | none => StreamStep.skipped
    | some f => StreamStep.emit f

/-- The chunk payload sequence a single stream session produces over a
sequence of observed states (the shared state as seen at each successive
poll, 100 ms apart).  The session stops at the first poll whose
`while camera_active` guard fails. -/
def session_emissions : List Sys → List Nat
  | [] => []
  | s :: rest =>
    match generate_frames_iter s with
    | StreamStep.ended => []
    | StreamStep.skipped => session_emissions rest
    | StreamStep.emit f => f :: session_emissions rest

/-- `webcam_frame` (lines 292-309) responses: HTTP 400 "Webcam not
active", HTTP 404 "No frame available", or the success JSON carrying the
encoded frame and `asyncio.get_event_loop().time()`. -/
inductive FrameResp
  | notActive
  | noFrame
  | ok (f : Nat) (t : Nat)
deriving DecidableEq, Repr

/-- `webcam_frame` (lines 292-309): rejects when `camera_active` is
false; under the lock, rejects when `current_frame` is `None`; otherwise
encodes the current frame and tags it with the current event-loop time
`now`. -/
def webcam_frame (s : Sys) (now : Nat) : FrameResp :=
  if s.camera_active = false then FrameResp.notActive
  else
    match s.current_frame with
    | none => FrameResp.noFrame
    | some f => FrameResp.ok f now

/-! ## Lock-scope structure of the stream path

For the concurrency claim we record, straight from the `with
camera_lock:` block structure, which atomic actions of one
`generate_frames` iteration and of the producer's publish run while the
shared `camera_lock` is held. -/

/-- Atomic actions of the stream session body and the producer publish. -/
inductive Act
  | acquire
  | readSlot
  | encode
  | yieldChunk
  | release
  | sleep
  | writeSlot
deriving DecidableEq, Repr

/-- The action sequence of one `generate_frames` iteration (lines
274-285), each action paired with whether `camera_lock` is held while it
runs.  The `cv2.imencode` call and the `yield` of the chunk both sit
inside the `with camera_lock:` block; only `asyncio.sleep(0.1)` is
outside it. -/
def generate_frames_trace (s : Sys) : List (Act × Bool) :=
  if s.camera_active = false then []
  else if s.current_frame = none then
    [(Act.acquire, true), (Act.readSlot, true), (Act.release, false), (Act.sleep, false)]
  else
    [(Act.acquire, true), (Act.readSlot, true), (Act.encode, true),
     (Act.yieldChunk, true), (Act.release, false), (Act.sleep, false)]

/-- The action sequence of the capture loop's publish (lines 214-215):
`with camera_lock: current_frame = frame` — the write to the slot
requires the same lock the sessions hold. -/
def publish_actions : List (Act × Bool) :=
  [(Act.acquire, true), (Act.writeSlot, true), (Act.release, false)]

/-! ## Theorems -/

/-- When every result contributes no box, the detection accumulator is
returned untouched. -/
theorem detLoop_fst_of_no_boxes (names : Nat → String) (d : List Detection)
    (i : String) (rs : List YoloResult)
    (h : ∀ r ∈ rs, r.boxes = none ∨ r.boxes = some []) :
    (detLoop names d i rs).1 = d := by
  induction rs generalizing d i with
  | nil => rfl
  | cons r rs ih =>
    have hr := h r (List.mem_cons_self r rs)
    have htl : ∀ x ∈ rs, x.boxes = none ∨ x.boxes = some [] :=
      fun x hx => h x (List.mem_cons_of_mem r hx)
    rcases hr with h1 | h1
    · rw [detLoop, h1]
      exact ih d i htl
    · rw [detLoop, h1]
      simpa using ih d r.plot htl

/-- C8: when the detector reports zero objects (every result's `boxes`
is `None` or empty), `process_detection` returns `detections = []`,
`count = 0`, `success = true` and the message "Aucun objet détecté". -/
theorem zero_detections_response (names : Nat → String) (encode : String → String)
    (img : String) (results : List YoloResult)
    (h : ∀ r ∈ results, r.boxes = none ∨ r.boxes = some []) :
    (process_detection names encode img results).detections = [] ∧
    (process_detection names encode img results).count = 0 ∧
    (process_detection names encode img results).success = true ∧
    (process_detection names encode img results).message = "Aucun objet détecté" := by
  have hd := detLoop_fst_of_no_boxes names [] img results h
  simp [process_detection, hd]

/-- Witness for `zero_detections_response` at a concrete one-result
input with an empty box list. -/
theorem zero_detections_response_witness :
    (process_detection (fun _ => "plastique") (fun s => s) "img"
      [⟨some [], "annotated"⟩]).detections = [] ∧
    (process_detection (fun _ => "plastique") (fun s => s) "img"
      [⟨some [], "annotated"⟩]).count = 0 ∧
    (process_detection (fun _ => "plastique") (fun s => s) "img"
      [⟨some [], "annotated"⟩]).success = true ∧
    (process_detection (fun _ => "plastique") (fun s => s) "img"
      [⟨some [], "annotated"⟩]).message = "Aucun objet détecté" :=
  zero_detections_response (fun _ => "plastique") (fun s => s) "img"
    [⟨some [], "annotated"⟩] (by decide)

/-- C9: every response `process_detection` builds is internally
consistent: `success` is true, `count` equals the length of
`detections`, and `message` is the count string for a positive count and
"Aucun objet détecté" for a zero count. -/
theorem detection_response_consistency (names : Nat → String)
    (encode : String → String) (img : String) (results : List YoloResult) :
    (process_detection names encode img results).success = true ∧
    (process_detection names encode img results).count =
      (process_detection names encode img results).detections.length ∧
    (process_detection names encode img results).message =
      (if 0 < (process_detection names encode img results).count
       then toString (process_detection names encode img results).count ++
         " objets détectés"
       else "Aucun objet détecté") := by
  refine ⟨rfl, rfl, ?_⟩
  show (if (detLoop names [] img results).1.isEmpty then _ else _) = _
  cases h : (detLoop names [] img results).1 with
  | nil => simp [process_detection, h]
  | cons a l => simp [process_detection, h]

/-- C10: with the model loaded, a detect-inline request whose `image`
field is absent, and a detect-upload request whose content type does not
start with `image/`, both escape the handler as HTTP 500 — the blanket
`except Exception` clause catches the handler's own 400 `HTTPException`
and re-raises it as a 500 whose detail is the string form of the
original exception. -/
theorem validation_errors_surface_as_500 (req : DetectionRequest) (ct : String)
    (contents : String) (conf : Int)
    (p1 p2 : String → Int → Except HTTPExc DetectionResponse)
    (h1 : req.image = none) (h2 : pyStartswith ct "image/" = false) :
    detect_image true req p1 =
      HandlerResult.httpError 500 (strExc ⟨400, "No image provided"⟩) ∧
    detect_upload true ct contents conf p2 =
      HandlerResult.httpError 500 (strExc ⟨400, "File must be an image"⟩) := by
  constructor
  · simp [detect_image, detect_image_body, optStrFalsy, h1]
  · simp [detect_upload, detect_upload_body, h2]

/-- Witness for `validation_errors_surface_as_500`: a request with no
image and an upload with content type `text/plain`. -/
theorem validation_errors_surface_as_500_witness :
    detect_image true ⟨0, none⟩ (fun _ _ => Except.error ⟨500, "na"⟩) =
      HandlerResult.httpError 500 (strExc ⟨400, "No image provided"⟩) ∧
    detect_upload true "text/plain" "abc" 0
        (fun _ _ => Except.error ⟨500, "na"⟩) =
      HandlerResult.httpError 500 (strExc ⟨400, "File must be an image"⟩) :=
  validation_errors_surface_as_500 ⟨0, none⟩ "text/plain" "abc" 0
    (fun _ _ => Except.error ⟨500, "na"⟩) (fun _ _ => Except.error ⟨500, "na"⟩)
    rfl (by decide)

/-- C1 counterexample: from a running state, a read returning no data
leaves `camera_active` true — the state does not become Stopped — and a
subsequent stream poll does not end the stream. -/
theorem device_disconnect_leaves_state_running_cex :
    (loopIter ⟨true, some 0, 1, 1⟩ ReadRes.noData).camera_active = true ∧
    generate_frames_iter (loopIter ⟨true, some 0, 1, 1⟩ ReadRes.noData) ≠
      StreamStep.ended := by
  decide

/-- C1 (amended): when a read returns no data the capture loop exits and
releases the device handle, but `camera_active` stays true, so a
subsequent stream request does not end immediately. -/
theorem device_disconnect_loop_exit_spec (s : Sys)
    (h1 : s.loops = 1) (h2 : s.camera_active = true) :
    (loopIter s ReadRes.noData).camera_active = true ∧
    (loopIter s ReadRes.noData).loops = 0 ∧
    (loopIter s ReadRes.noData).openCaps = s.openCaps - 1 ∧
    generate_frames_iter (loopIter s ReadRes.noData) ≠ StreamStep.ended := by
  have hs : loopIter s ReadRes.noData =
      { s with loops := s.loops - 1, openCaps := s.openCaps - 1 } := by
    simp [loopIter, h1, h2]
  refine ⟨by rw [hs]; exact h2, by rw [hs, h1], by rw [hs], ?_⟩
  rw [hs]
  cases hf : s.current_frame <;> simp [generate_frames_iter, h2, hf]

/-- Witness for `device_disconnect_loop_exit_spec`. -/
theorem device_disconnect_loop_exit_spec_witness :
    (loopIter ⟨true, some 5, 1, 1⟩ ReadRes.noData).camera_active = true ∧
    (loopIter ⟨true, some 5, 1, 1⟩ ReadRes.noData).loops = 0 ∧
    (loopIter ⟨true, some 5, 1, 1⟩ ReadRes.noData).openCaps = 0 ∧
    generate_frames_iter (loopIter ⟨true, some 5, 1, 1⟩ ReadRes.noData) ≠
      StreamStep.ended :=
  device_disconnect_loop_exit_spec ⟨true, some 5, 1, 1⟩ rfl rfl

/-- C2 counterexample: `start`, then `stop`, then `start` again before
the running loop observes the stop, leaves two concurrent capture loops
— the at-most-one-loop invariant does not hold globally. -/
theorem double_loop_after_stop_start_cex :
    ((webcam_start (webcam_stop ((webcam_start ⟨false, none, 0, 0⟩).1)).1).1).loops
      = 2 := by
  decide

/-- C2 (amended): `start` while `camera_active` is true returns the
informational `already_active` status, spawns nothing and leaves the
state unchanged; in particular two `start` calls in a row from a stopped
state yield exactly one loop.  (The global at-most-one-loop invariant
still fails across a stop/start race, see the counterexample.) -/
theorem start_when_active_noop_spec (s s' : Sys)
    (h : s.camera_active = true) (h' : s'.camera_active = false) :
    webcam_start s = (s, "already_active") ∧
    ((webcam_start s').1).loops = s'.loops + 1 ∧
    webcam_start ((webcam_start s').1) = ((webcam_start s').1, "already_active") := by
  refine ⟨by simp [webcam_start, h], ?_, ?_⟩
  · simp [webcam_start, h']
  · simp [webcam_start, h']

/-- Witness for `start_when_active_noop_spec`. -/
theorem start_when_active_noop_spec_witness :
    webcam_start ⟨true, some 3, 1, 1⟩ = (⟨true, some 3, 1, 1⟩, "already_active") ∧
    ((webcam_start ⟨false, none, 0, 0⟩).1).loops = 0 + 1 ∧
    webcam_start ((webcam_start ⟨false, none, 0, 0⟩).1) =
      ((webcam_start ⟨false, none, 0, 0⟩).1, "already_active") :=
  start_when_active_noop_spec ⟨true, some 3, 1, 1⟩ ⟨false, none, 0, 0⟩ rfl rfl

/-- C3 counterexample: a frame published before `stop` survives it; after
the loop winds down and the pipeline is restarted, `frame()` serves the
pre-stop frame (generation 7) before the new loop's first publish. -/
theorem stale_frame_after_restart_cex :
    webcam_frame
      ((webcam_start
        (loopIter (webcam_stop ⟨true, some 7, 1, 1⟩).1 (ReadRes.frame 9))).1) 42 =
      FrameResp.ok 7 42 := by
  decide

/-- C3 (amended): `stop()` only resets `camera_active` and leaves the
shared frame slot untouched; an immediate `frame()` yields NotActive
solely because of the state check, not because the slot was cleared. -/
theorem stop_preserves_slot_spec (s : Sys) (t : Nat) :
    ((webcam_stop s).1).current_frame = s.current_frame ∧
    ((webcam_stop s).1).camera_active = false ∧
    webcam_frame ((webcam_stop s).1) t = FrameResp.notActive := by
  refine ⟨rfl, rfl, ?_⟩
  simp [webcam_stop, webcam_frame]

/-- C4 counterexample: a session that polls an unchanged slot twice
emits the same generation twice in a row. -/
theorem duplicate_generation_emission_cex :
    session_emissions [⟨true, some 5, 1, 1⟩, ⟨true, some 5, 1, 1⟩] = [5, 5] ∧
    (session_emissions [⟨true, some 5, 1, 1⟩, ⟨true, some 5, 1, 1⟩]).get? 0 =
      (session_emissions [⟨true, some 5, 1, 1⟩, ⟨true, some 5, 1, 1⟩]).get? 1 := by
  decide

/-- C4 (amended): a stream session emits the current slot frame at every
poll whenever one is present — it keeps no record of the last emission,
so an unchanged slot is re-sent rather than skipped. -/
theorem stream_reemits_unchanged_frame_spec (s : Sys) (f : Nat)
    (h1 : s.camera_active = true) (h2 : s.current_frame = some f) :
    generate_frames_iter s = StreamStep.emit f ∧
    session_emissions [s, s] = [f, f] := by
  have hg : generate_frames_iter s = StreamStep.emit f := by
    simp [generate_frames_iter, h1, h2]
  exact ⟨hg, by simp [session_emissions, hg]⟩

/-- Witness for `stream_reemits_unchanged_frame_spec`. -/
theorem stream_reemits_unchanged_frame_spec_witness :
    generate_frames_iter ⟨true, some 5, 1, 1⟩ = StreamStep.emit 5 ∧
    session_emissions [⟨true, some 5, 1, 1⟩, ⟨true, some 5, 1, 1⟩] = [5, 5] :=
  stream_reemits_unchanged_frame_spec ⟨true, some 5, 1, 1⟩ 5 rfl rfl

/-- C5 counterexample: on an unexpected error the loop stops, but the
device handle is still open and the slot still holds the old frame. -/
theorem loop_error_leaks_resources_cex :
    (loopIter ⟨true, some 3, 1, 1⟩ ReadRes.raisesErr).camera_active = false ∧
    (loopIter ⟨true, some 3, 1, 1⟩ ReadRes.raisesErr).openCaps = 1 ∧
    (loopIter ⟨true, some 3, 1, 1⟩ ReadRes.raisesErr).current_frame = some 3 := by
  decide

/-- C5 (amended): an unexpected error inside the capture loop is caught
and only sets `camera_active` to false (and is logged); the device
handle is not released and the shared frame slot is not cleared. -/
theorem loop_error_handling_spec (s : Sys)
    (h1 : s.loops = 1) (h2 : s.camera_active = true) :
    (loopIter s ReadRes.raisesErr).camera_active = false ∧
    (loopIter s ReadRes.raisesErr).loops = 0 ∧
    (loopIter s ReadRes.raisesErr).openCaps = s.openCaps ∧
    (loopIter s ReadRes.raisesErr).current_frame = s.current_frame := by
  simp [loopIter, h1, h2]

/-- Witness for `loop_error_handling_spec`. -/
theorem loop_error_handling_spec_witness :
    (loopIter ⟨true, some 3, 1, 1⟩ ReadRes.raisesErr).camera_active = false ∧
    (loopIter ⟨true, some 3, 1, 1⟩ ReadRes.raisesErr).loops = 0 ∧
    (loopIter ⟨true, some 3, 1, 1⟩ ReadRes.raisesErr).openCaps = 1 ∧
    (loopIter ⟨true, some 3, 1, 1⟩ ReadRes.raisesErr).current_frame = some 3 :=
  loop_error_handling_spec ⟨true, some 3, 1, 1⟩ rfl rfl

/-- C6: `frame()` yields NotActive exactly when `camera_active` is
false, NoFrameYet when active with an absent slot, and otherwise the
current slot frame tagged with the current time. -/
theorem webcam_frame_trichotomy (s : Sys) (t : Nat) :
    (s.camera_active = false → webcam_frame s t = FrameResp.notActive) ∧
    (s.camera_active = true → s.current_frame = none →
      webcam_frame s t = FrameResp.noFrame) ∧
    (∀ f, s.camera_active = true → s.current_frame = some f →
      webcam_frame s t = FrameResp.ok f t) := by
  refine ⟨fun h => by simp [webcam_frame, h],
    fun h hf => by simp [webcam_frame, h, hf],
    fun f h hf => by simp [webcam_frame, h, hf]⟩

/-- Witness for `webcam_frame_trichotomy`, covering all three cases. -/
theorem webcam_frame_trichotomy_witness :
    webcam_frame ⟨false, none, 0, 0⟩ 3 = FrameResp.notActive ∧
    webcam_frame ⟨true, none, 1, 1⟩ 3 = FrameResp.noFrame ∧
    webcam_frame ⟨true, some 4, 1, 1⟩ 3 = FrameResp.ok 4 3 :=
  ⟨(webcam_frame_trichotomy ⟨false, none, 0, 0⟩ 3).1 rfl,
   (webcam_frame_trichotomy ⟨true, none, 1, 1⟩ 3).2.1 rfl rfl,
   (webcam_frame_trichotomy ⟨true, some 4, 1, 1⟩ 3).2.2 4 rfl rfl⟩

/-- C7 counterexample: in a session's iteration the encode step and the
chunk yield both run while the shared lock is held. -/
theorem lock_held_during_encode_and_yield_cex :
    (Act.encode, true) ∈ generate_frames_trace ⟨true, some 5, 1, 1⟩ ∧
    (Act.yieldChunk, true) ∈ generate_frames_trace ⟨true, some 5, 1, 1⟩ := by
  decide

/-- C7 (amended): whenever a session emits, it holds `camera_lock` while
encoding and while yielding the chunk to the client; the producer's
publish needs that same lock, so a session mid-emission excludes the
publish (and other sessions). -/
theorem stream_session_lock_scope_spec (s : Sys) (f : Nat)
    (h1 : s.camera_active = true) (h2 : s.current_frame = some f) :
    (Act.encode, true) ∈ generate_frames_trace s ∧
    (Act.yieldChunk, true) ∈ generate_frames_trace s ∧
    (Act.writeSlot, true) ∈ publish_actions := by
  refine ⟨?_, ?_, ?_⟩ <;> simp [generate_frames_trace, h1, h2, publish_actions]

/-- Witness for `stream_session_lock_scope_spec`. -/
theorem stream_session_lock_scope_spec_witness :
    (Act.encode, true) ∈ generate_frames_trace ⟨true, some 6, 1, 1⟩ ∧
    (Act.yieldChunk, true) ∈ generate_frames_trace ⟨true, some 6, 1, 1⟩ ∧
    (Act.writeSlot, true) ∈ publish_actions :=
  stream_session_lock_scope_spec ⟨true, some 6, 1, 1⟩ 6 rfl rfl

end TriDechet
